import Mathlib

/-!
Verification of the predictive / restock pipeline of the capstone_itrack
backend (FastAPI + pandas).  The definitions below are a shallow embedding of
`backend/routers/predictive.py`, `backend/scripts/backtest_predictive.py`,
`backend/main.py` and `backend/routers/activity_logger.py`.  The module
`services/predictive_service.py` is imported by the routers but is not part of
the source tree; functions from it are modelled from the specification and
are marked as such in their doc comments.

Conventions of the embedding:
- machine text is `String`; Python `str.casefold()` / `str.strip()` are
  modelled by character-list maps so that the kernel can evaluate them;
- pandas timestamps are represented at the granularity the pipeline actually
  uses: a calendar month is an integer ordinal;
- quantities are `Int`, model outputs (floats) are `ℚ`;
- a fallible Python call is `Except`.
-/

deriving instance DecidableEq for Except

namespace ITrack

/-- Python `str.casefold()` restricted to the ASCII names used by this app:
lower-cases every character (casefold and lower agree on ASCII input). -/
def casefold (s : String) : String := String.mk (s.data.map Char.toLower)

/-- Helper for `strip`: drop whitespace from both ends of a character list. -/
def stripList (l : List Char) : List Char :=
  ((l.dropWhile Char.isWhitespace).reverse.dropWhile Char.isWhitespace).reverse

/-- Python `str.strip()`: remove leading and trailing whitespace. -/
def strip (s : String) : String := String.mk (stripList s.data)

/-- Python `int(x)` applied to a float: truncation toward zero. -/
def pyTruncInt (q : ℚ) : Int := if 0 ≤ q then ⌊q⌋ else ⌈q⌉

/-- pandas `Series.round(0)`: round half to even (banker's rounding), the IEEE
default used by numpy/pandas. -/
def roundHalfEven (q : ℚ) : Int :=
  let f := ⌊q⌋
  if q - f < 1/2 then f
  else if 1/2 < q - f then f + 1
  else if f % 2 = 0 then f else f + 1

/-! ### Item stock table (predictive.py) -/

/-- One row of the item stock table, as returned by the SQL
`SELECT name AS item_name, stock_quantity FROM item`. -/
structure StockRow where
  item_name : String
  stock_quantity : Int
deriving Repr, DecidableEq

/-- `_get_stock_from_db` (predictive.py lines 49-62): after fetching, every
`item_name` is `str.strip()`ed. -/
def get_stock_from_db (rows : List StockRow) : List StockRow :=
  rows.map (fun r => { r with item_name := strip r.item_name })

/-- The `stock_map` built in `forecast_one_item` / `export_item_plan` /
`next_month_one_item`: keys are `n.casefold()` over the (already stripped)
names coming out of `_get_stock_from_db`. -/
def stock_map (stock_df : List StockRow) : List (String × Int) :=
  stock_df.map (fun r => (casefold r.item_name, r.stock_quantity))

/-- Python `dict(...)` built left-to-right and then `.get k d`: the last
binding for a key wins, a missing key yields the default. -/
def dictGet (pairs : List (String × Int)) (k : String) (d : Int) : Int :=
  match (pairs.reverse).find? (fun p => p.1 == k) with
  | some p => p.2
  | none => d

/-- `current_stock = stock_map.get(item_name.casefold(), 0)` as written in
`forecast_one_item` (line 133), `export_item_plan` (line 199) and
`next_month_one_item` (line 245): the request name is casefolded but NOT
stripped. -/
def currentStockFor (rows : List StockRow) (item_name : String) : Int :=
  dictGet (stock_map (get_stock_from_db rows)) (casefold item_name) 0

/-- The key normalisation used in `next_month_all_items` (lines 291, 298,
324, 334): `str(x).strip().casefold()` on BOTH the table side and the lookup
side. -/
def allItemsKey (s : String) : String := casefold (strip s)

/-- The stock map of `next_month_all_items` (lines 323-326): keys are
`n.strip().casefold()`. -/
def stock_map_all (stock_df : List StockRow) : List (String × Int) :=
  stock_df.map (fun r => (allItemsKey r.item_name, r.stock_quantity))

/-- Stock lookup in `next_month_all_items` (line 334):
`stock_map.get(name.strip().casefold(), 0)`. -/
def currentStockForAll (rows : List StockRow) (name : String) : Int :=
  dictGet (stock_map_all (get_stock_from_db rows)) (allItemsKey name) 0

/-! ### History rows and the monthly aggregation -/

/-- One issuance history row.  The pipeline only ever uses the calendar month
of the date, so the date is carried as its month ordinal. -/
structure HistRecord where
  month : Int
  item_name : String
  quantity : Int
deriving Repr, DecidableEq

/-- The row-level history table produced by the loaders. -/
abbrev History := List HistRecord

/-- The rows of `hist` belonging to one item, matched on the normalised
(stripped + casefolded) name — the normalisation the spec's invariant (§3)
prescribes for every series/cache key. -/
def itemHistory (hist : History) (item : String) : History :=
  hist.filter (fun r => allItemsKey r.item_name == allItemsKey item)

/-- Modelled from the spec: the monthly aggregation (`to_monthly`) of
services/predictive_service.py, which is not in the source tree.  Spec §4.2:
group by calendar month and sum quantities; months with no activity are
simply absent. -/
def monthlySeries (rows : History) : List (Int × Int) :=
  ((rows.map (fun r => r.month)).dedup).map
    (fun m => (m, ((rows.filter (fun r => r.month = m)).map (fun r => r.quantity)).sum))

/-- Modelled from the spec: the heuristic estimator used by the forecaster's
fallback path (services/predictive_service.py, not in the source tree).  Spec
§4.5: "an average or most-recent-value estimator over the item's available
monthly history" — modelled as the mean of the populated monthly sums
(0 for an empty series). -/
def heuristicEstimate (rows : History) : ℚ :=
  let ys := (monthlySeries rows).map (fun p => (p.2 : ℚ))
  if ys.isEmpty then 0 else ys.sum / (ys.length : ℚ)

/-! ### backtest_predictive.forecast_from_train (scripts/backtest_predictive.py) -/

/-- One row of the per-item monthly train table: `month` is the Period
ordinal, `y` the monthly quantity (`none` models a NaN cell). -/
structure TrainRow where
  month : Int
  y : Option ℚ
deriving Repr, DecidableEq

/-- The populated (non-NaN) monthly values: `train_df["y"].dropna()`. -/
def populatedMonths (df : List TrainRow) : List ℚ := df.filterMap (fun r => r.y)

/-- `n_months = train_df["y"].dropna().shape[0]` (backtest line 52). -/
def n_months (df : List TrainRow) : Nat := (populatedMonths df).length

/-- `last_month = train_df["month"].max()` (backtest line 53); 0 for an empty
frame (pandas would give NaN, but the callers never pass an empty frame). -/
def lastMonth (df : List TrainRow) : Int := ((df.map (fun r => r.month)).max?).getD 0

/-- Modelled from the spec: `fallback_next_month` of
services/predictive_service.py, which is not in the source tree.  Spec §4.5
and the glossary describe the heuristic fallback as an average/last-value
estimator over the available monthly history — modelled as the mean of the
populated months (0 when none are populated). -/
def fallback_next_month (df : List TrainRow) : ℚ :=
  let ys := populatedMonths df
  if ys.isEmpty then 0 else ys.sum / (ys.length : ℚ)

/-- The sparse branch of `forecast_from_train` (backtest lines 56-63): the
fallback value, truncated by `int(...)`, replicated over months
last+1 .. last+horizon. -/
def fallbackRows (df : List TrainRow) (horizon : Nat) : List (Int × Int) :=
  (List.range horizon).map
    (fun i => (lastMonth df + (i : Int) + 1, pyTruncInt (fallback_next_month df)))

/-- Post-processing of one Prophet prediction (backtest lines 74-80):
`yhat.fillna(0.0).clip(lower=0.0).round(0).astype(int)`. -/
def prophetQty (yhat : Option ℚ) : Int := roundHalfEven (max 0 (yhat.getD 0))

/-- The Prophet branch of `forecast_from_train` (backtest lines 70-81): the
future months are last+1, last+2, ... (`make_future_dataframe` with monthly
frequency and no history), paired with the post-processed `yhat` column. -/
def prophetRows (last : Int) (yhat : List (Option ℚ)) : List (Int × Int) :=
  (List.zip (List.range yhat.length) yhat).map
    (fun p => (last + (p.1 : Int) + 1, prophetQty p.2))

/-- `forecast_from_train` (backtest lines 47-81).  The Prophet model's raw
`yhat` output is external input, passed as `yhat`.  The `n_months < 2` test
mirrors the dead guard on line 66 (unreachable once `n_months ≥ 12`). -/
def forecast_from_train (df : List TrainRow) (horizon : Nat)
    (yhat : List (Option ℚ)) : List (Int × Int) :=
  if n_months df < 12 then fallbackRows df horizon
  else if n_months df < 2 then fallbackRows df horizon
  else prophetRows (lastMonth df) yhat

/-- Non-degenerate variance of a monthly series: two populated months with
different values (spec §4.3 "non-degenerate variance"). -/
def nonzeroVariance (df : List TrainRow) : Prop :=
  ∃ a ∈ populatedMonths df, ∃ b ∈ populatedMonths df, a ≠ b

/-! ### Restock planner -/

/-- One row of a restock plan (spec §3, RestockPlanRow). -/
structure PlanRow where
  month : Int
  forecast_qty : Int
  recommended_restock : Int
  running_stock : Int
deriving Repr, DecidableEq

/-- Modelled from the spec: `recommended_restock_plan` of
services/predictive_service.py, which is not in the source tree.  Spec §4.6:
walk the forecast months in order keeping a running projected stock that
starts at `current_stock`; each month recommends
`max(0, forecast_qty - running_stock)` and, assuming exactly enough is
restocked to cover the month, carries `max(0, running_stock - forecast_qty)`
of leftover stock into the next month. -/
def recommended_restock_plan : List (Int × Int) → Int → List PlanRow
  | [], _ => []
  | (m, q) :: rest, s =>
      { month := m, forecast_qty := q,
        recommended_restock := max 0 (q - s),
        running_stock := max 0 (s - q) }
        :: recommended_restock_plan rest (max 0 (s - q))

/-- The stock still left over after serving the months of `fc` from an
initial stock of `cs` (never below zero). -/
def leftover (cs : Int) : List (Int × Int) → Int
  | [] => cs
  | q :: rest => leftover (max 0 (cs - q.2)) rest

/-! ### activity_logger.log_activity (routers/activity_logger.py) -/

/-- The Python values a caller can hand to `log_activity` as `user_id`. -/
inductive PyVal where
  | vnone
  | vint (n : Int)
  | vfloat (q : ℚ)
  | vstr (s : String)
deriving Repr, DecidableEq

/-- The exceptions relevant to `log_activity`'s handlers. -/
inductive PyExc where
  | typeError
  | valueError
  | integrityError (msg : String)
  | otherError (msg : String)
deriving Repr, DecidableEq

/-- Decimal digit-string value, `none` when empty or a non-digit occurs. -/
def digitsVal (l : List Char) : Option Nat :=
  if l.isEmpty then none
  else l.foldl
    (fun acc c =>
      match acc with
      | none => none
      | some n => if c.isDigit then some (n * 10 + (c.toNat - 48)) else none)
    (some 0)

/-- Python `int(s)` on a string: optional sign then decimal digits. -/
def parseIntStr (s : String) : Option Int :=
  match s.data with
  | '-' :: rest => (digitsVal rest).map (fun n => -(n : Int))
  | l => (digitsVal l).map (fun n => (n : Int))

/-- Python `int(x)`: `TypeError` on `None`, `ValueError` on a non-numeric
string, truncation on a float. -/
def pyIntOf : PyVal → Except PyExc Int
  | .vnone => .error .typeError
  | .vint n => .ok n
  | .vfloat q => .ok (pyTruncInt q)
  | .vstr s =>
      match parseIntStr s with
      | some n => .ok n
      | none => .error .valueError

/-- Lines 21-24 of activity_logger.py:
`uid = int(user_id) if user_id is not None else None` under an
`except (TypeError, ValueError)` that resets `uid` to `None`; any other
exception would propagate. -/
def uidOf (v : PyVal) : Except PyExc (Option Int) :=
  match v with
  | .vnone => .ok none
  | _ =>
      match pyIntOf v with
      | .ok n => .ok (some n)
      | .error e =>
          if e = PyExc.typeError ∨ e = PyExc.valueError then .ok none else .error e

/-- Outcome of the database portion of `log_activity` (connect, execute,
commit, close). -/
inductive DbOutcome where
  | ok
  | connectFail (msg : String)
  | integrityViolation (msg : String)
  | otherFailure (msg : String)
deriving Repr, DecidableEq

/-- `log_activity` (activity_logger.py lines 10-57): the user-id conversion
guarded by `except (TypeError, ValueError)`, then the insert guarded by
`except IntegrityError` and `except Exception` (both swallow the error and
log it); the `finally` close is itself wrapped in `try/except`. -/
def log_activity (user_id : PyVal) (db : DbOutcome) : Except PyExc Unit :=
  match uidOf user_id with
  | .error e => .error e
  | .ok _ =>
      match db with
      | .ok => .ok ()
      | .connectFail _ => .ok ()
      | .integrityViolation _ => .ok ()
      | .otherFailure _ => .ok ()

/-! ### The forecaster entry points (services/predictive_service.py, modelled) -/

/-- A fitted per-item model: its raw monthly predictions, indexed by the
future-month offset.  The fit/predict mathematics is delegated wholesale to
the external library (spec §9), so a model is opaque external input here. -/
abbrev Models := List (String × (Nat → ℚ))

/-- Cache lookup by normalised item name (spec §3 invariant: keys are
case-insensitive and whitespace-trimmed); a later insertion wins, as in a
Python dict. -/
def lookupModel (models : Models) (item : String) : Option (Nat → ℚ) :=
  ((models.reverse).find? (fun p => p.1 == allItemsKey item)).map (fun p => p.2)

/-- The last populated month of an item's history rows; 0 when empty. -/
def lastHistMonth (rows : History) : Int := ((rows.map (fun r => r.month)).max?).getD 0

/-- Modelled from the spec: `forecast_next_6_months_for_itemname` of
services/predictive_service.py, which is not in the source tree.  Spec §4.5:
with a cached model, take its 6 future predictions, clip negatives to zero
and round to integers; with no cached model but available history, replicate
the heuristic estimate across the horizon; for an item in neither the cache
nor the history, raise (a reported error, not a silent zero). -/
def forecast_next_6_months_for_itemname (models : Models) (hist : History)
    (item : String) : Except String (List (Int × Int)) :=
  match lookupModel models item with
  | some m =>
      .ok ((List.range 6).map
        (fun (i : Nat) =>
          (lastHistMonth (itemHistory hist item) + (i : Int) + 1,
           roundHalfEven (max 0 (m i)))))
  | none =>
      if (itemHistory hist item).isEmpty then .error ("No data for item: " ++ item)
      else
        .ok ((List.range 6).map
          (fun i =>
            (lastHistMonth (itemHistory hist item) + (i : Int) + 1,
             pyTruncInt (heuristicEstimate (itemHistory hist item)))))

/-- Modelled from the spec: `forecast_next_month_safe` of
services/predictive_service.py, which is not in the source tree.  Spec §4.5:
the first value of the same 6-month path, with the heuristic wrapped so the
call never raises for an item with at least one historical record; it reports
"no data" exactly for an item with zero history. -/
def forecast_next_month_safe (models : Models) (hist : History)
    (item : String) : Except String Int :=
  if (itemHistory hist item).isEmpty then .error ("No data for item: " ++ item)
  else
    match forecast_next_6_months_for_itemname models hist item with
    | .ok path => .ok ((path.map (fun p => p.2)).headD 0)
    | .error _ => .ok (pyTruncInt (heuristicEstimate (itemHistory hist item)))

/-! ### The predictive router endpoints (routers/predictive.py) -/

/-- Result of one loader call (`load_history_from_db` /
`load_history_from_excel`): a row table, or a raised load error. -/
inductive LoadRes where
  | ok (rows : History)
  | fail (msg : String)
deriving Repr, DecidableEq

/-- The shared history-loading head of `forecast_one_item` (lines 121-126),
`forecast_all_items`, `next_month_one_item` and `next_month_all_items`:
`hist = load_history_from_db(); if hist.empty: hist = load_history_from_excel()`
inside one `try`, so a raise from either loader escapes as the error. -/
def load_pref (db xl : LoadRes) : Except String History :=
  match db with
  | .fail m => .error m
  | .ok rows =>
      if rows.isEmpty then
        match xl with
        | .fail m => .error m
        | .ok xs => .ok xs
      else .ok rows

/-- The history used by `export_item_plan` (lines 189-192): it calls only
`load_history_from_excel`.  The database result is passed as an argument
precisely to state that it plays no role there. -/
def export_history_source (_db xl : LoadRes) : Except String History :=
  match xl with
  | .fail m => .error m
  | .ok rows => .ok rows

/-- An HTTPException raised by an endpoint, or an exception it never
catches. -/
inductive ApiErr where
  | badRequest (detail : String)
  | notFound (detail : String)
  | unhandled (e : PyExc)
deriving Repr, DecidableEq

/-- The JSON body returned by `forecast_one_item` (lines 149-158). -/
structure ForecastResponse where
  item_name : String
  current_stock : Int
  monthly_forecast : List (Int × Int)
  restock_plan : List PlanRow
  total_6mo_forecast : Int
  total_recommended_restock : Int
deriving Repr, DecidableEq

/-- `forecast_one_item` (lines 116-158): load history preferring the DB
(400 on load failure), look up current stock by casefolded name defaulting
to 0, forecast (404 when the forecaster raises), build the restock plan,
log the activity, and answer. -/
def forecast_one_item (db xl : LoadRes) (stock : List StockRow) (models : Models)
    (item_name : String) (actor : PyVal) (logdb : DbOutcome) :
    Except ApiErr ForecastResponse :=
  match load_pref db xl with
  | .error m => .error (.badRequest ("Data load failed: " ++ m))
  | .ok hist =>
      let current_stock := currentStockFor stock item_name
      match forecast_next_6_months_for_itemname models hist item_name with
      | .error e => .error (.notFound e)
      | .ok monthly =>
          let plan := recommended_restock_plan monthly current_stock
          match log_activity actor logdb with
          | .error e => .error (.unhandled e)
          | .ok _ =>
              .ok { item_name := item_name
                    current_stock := current_stock
                    monthly_forecast := monthly
                    restock_plan := plan
                    total_6mo_forecast := (monthly.map (fun p => p.2)).sum
                    total_recommended_restock :=
                      (plan.map (fun r => r.recommended_restock)).sum }

/-- The JSON body returned by `next_month_one_item` (lines 259-263). -/
structure NextMonthResponse where
  item_name : String
  next_month_forecast : Int
  current_stock : Int
deriving Repr, DecidableEq

/-- `next_month_one_item` (lines 225-263): same loading and stock lookup as
`forecast_one_item`, then the single-month safe forecast (404 when it
raises). -/
def next_month_one_item (db xl : LoadRes) (stock : List StockRow) (models : Models)
    (item_name : String) (actor : PyVal) (logdb : DbOutcome) :
    Except ApiErr NextMonthResponse :=
  match load_pref db xl with
  | .error m => .error (.badRequest ("Data load failed: " ++ m))
  | .ok hist =>
      let current_stock := currentStockFor stock item_name
      match forecast_next_month_safe models hist item_name with
      | .error e => .error (.notFound e)
      | .ok pred =>
          match log_activity actor logdb with
          | .error e => .error (.unhandled e)
          | .ok _ =>
              .ok { item_name := item_name
                    next_month_forecast := pred
                    current_stock := current_stock }

/-- `export_item_plan` (lines 183-222): loads history from the spreadsheet
ONLY, then the same stock lookup, forecast and plan as `forecast_one_item`;
the response is the exported plan table. -/
def export_item_plan (xl : LoadRes) (stock : List StockRow) (models : Models)
    (item_name : String) (actor : PyVal) (logdb : DbOutcome) :
    Except ApiErr (List PlanRow) :=
  match xl with
  | .fail m => .error (.badRequest ("Data load failed: " ++ m))
  | .ok hist =>
      let current_stock := currentStockFor stock item_name
      match forecast_next_6_months_for_itemname models hist item_name with
      | .error e => .error (.notFound e)
      | .ok monthly =>
          let plan := recommended_restock_plan monthly current_stock
          match log_activity actor logdb with
          | .error e => .error (.unhandled e)
          | .ok _ => .ok plan

/-! ### The daily auto-train scheduler (main.py lines 35-62) -/

/-- The `last_trained_utc` field as the loop reads it: `none` when absent or
not a string, `some none` for a string `datetime.fromisoformat` rejects,
`some (some d)` for a string parsing to UTC date `d` (a day ordinal). -/
abbrev LastTrained := Option (Option Nat)

/-- Lines 42-48 of main.py: `already_ran_today` is True exactly when the
status holds a string timestamp that parses and whose date equals today. -/
def already_ran_today (last : LastTrained) (today : Nat) : Bool :=
  match last with
  | some (some d) => d == today
  | _ => false

/-- Line 50: the loop starts `train_from_db_and_persist` (in an executor) iff
`already_ran_today` is false. -/
def triggersRetrain (last : LastTrained) (today : Nat) : Bool :=
  !(already_ran_today last today)

/-- The UTC calendar day of a time measured in seconds. -/
def utcDay (t : Nat) : Nat := t / 86400

/-! ## Theorems -/

/-- C1: For every forecast series and every non-negative current_stock, the
restock planner walks the months in order keeping a running projected stock
that starts at current_stock, and row i recommends
`max 0 (forecast_qty i - leftover-from-prior-months)`; consequently every
recommended_restock is non-negative. -/
theorem C1_restock_plan_rows (fc : List (Int × Int)) (cs : Int) (hcs : 0 ≤ cs) :
    ∀ i q, fc[i]? = some q →
      ∃ row, (recommended_restock_plan fc cs)[i]? = some row ∧
        row.recommended_restock = max 0 (q.2 - leftover cs (fc.take i)) ∧
        0 ≤ row.recommended_restock := by
  revert hcs
  induction fc generalizing cs with
  | nil => intro _ i q h; simp at h
  | cons hd tl ih =>
      intro _ i q h
      obtain ⟨m, qv⟩ := hd
      cases i with
      | zero =>
          simp only [List.getElem?_cons_zero, Option.some.injEq] at h
          subst h
          exact ⟨⟨m, qv, max 0 (qv - cs), max 0 (cs - qv)⟩,
            by simp [recommended_restock_plan], by simp [leftover], le_max_left _ _⟩
      | succ n =>
          simp only [List.getElem?_cons_succ] at h
          obtain ⟨row, hrow, heq, hpos⟩ := ih (max 0 (cs - qv)) (le_max_left _ _) n q h
          refine ⟨row, ?_, ?_, hpos⟩
          · simpa [recommended_restock_plan] using hrow
          · simpa [leftover, List.take_succ_cons] using heq

/-- Witness for C1 at forecast [(1,10),(2,5)] and current_stock 3. -/
theorem C1_restock_plan_rows_witness :
    ∃ row, (recommended_restock_plan [(1, 10), (2, 5)] 3)[0]? = some row ∧
      row.recommended_restock = max 0 (10 - leftover 3 ([(1, 10), (2, 5)].take 0)) ∧
      0 ≤ row.recommended_restock :=
  C1_restock_plan_rows [(1, 10), (2, 5)] 3 (by decide) 0 (1, 10) rfl

/-- Helper: Python float truncation preserves non-negativity. -/
theorem pyTruncInt_nonneg (q : ℚ) (h : 0 ≤ q) : 0 ≤ pyTruncInt q := by
  unfold pyTruncInt
  rw [if_pos h]
  exact Int.floor_nonneg.mpr h

/-- Helper: half-to-even rounding preserves non-negativity. -/
theorem roundHalfEven_nonneg (q : ℚ) (h : 0 ≤ q) : 0 ≤ roundHalfEven q := by
  unfold roundHalfEven
  have hf : 0 ≤ ⌊q⌋ := Int.floor_nonneg.mpr h
  dsimp only
  split_ifs <;> omega

/-- Helper: a clipped-and-rounded Prophet prediction is non-negative. -/
theorem prophetQty_nonneg (o : Option ℚ) : 0 ≤ prophetQty o :=
  roundHalfEven_nonneg _ (le_max_left 0 _)

/-- Helper: the heuristic fallback value is non-negative on a history whose
populated monthly values are non-negative. -/
theorem fallback_next_month_nonneg (df : List TrainRow)
    (h : ∀ r ∈ df, 0 ≤ r.y.getD 0) : 0 ≤ fallback_next_month df := by
  unfold fallback_next_month
  dsimp only
  split_ifs with he
  · exact le_refl 0
  · apply div_nonneg
    · apply List.sum_nonneg
      intro x hx
      obtain ⟨a, ha, hay⟩ := List.mem_filterMap.mp hx
      have h2 := h a ha
      rw [hay] at h2
      simpa using h2
    · exact Nat.cast_nonneg _

/-- C2: Every quantity produced by `forecast_from_train` is an integer ≥ 0
(for any Prophet output: negatives are clipped before rounding; the fallback
value is a non-negative average truncated by `int`), given a history whose
monthly quantities are non-negative. -/
theorem C2_forecast_qty_nonneg (df : List TrainRow) (horizon : Nat)
    (yhat : List (Option ℚ)) (hq : ∀ r ∈ df, 0 ≤ r.y.getD 0) :
    ∀ p ∈ forecast_from_train df horizon yhat, 0 ≤ p.2 := by
  intro p hp
  unfold forecast_from_train at hp
  have hfb : p ∈ fallbackRows df horizon → 0 ≤ p.2 := by
    intro hm
    unfold fallbackRows at hm
    obtain ⟨i, _, hi⟩ := List.mem_map.mp hm
    rw [← hi]
    exact pyTruncInt_nonneg _ (fallback_next_month_nonneg df hq)
  have hpr : p ∈ prophetRows (lastMonth df) yhat → 0 ≤ p.2 := by
    intro hm
    unfold prophetRows at hm
    obtain ⟨pr, _, hi⟩ := List.mem_map.mp hm
    rw [← hi]
    exact prophetQty_nonneg _
  split_ifs at hp
  · exact hfb hp
  · exact hfb hp
  · exact hpr hp

/-- Witness for C2 on a one-month history and a negative Prophet output. -/
theorem C2_forecast_qty_nonneg_witness :
    (forecast_from_train [⟨0, some 3⟩] 2 [some (-5)]).all
      (fun p => decide (0 ≤ p.2)) = true := by
  rw [List.all_eq_true]
  intro p hp
  simpa using C2_forecast_qty_nonneg [⟨0, some 3⟩] 2 [some (-5)] (by decide) p hp

/-- C3: With at least 12 populated months (of non-zero variance) the
forecaster takes the statistical-model branch; with fewer than 12 populated
months it takes the heuristic fallback branch. -/
theorem C3_eligibility (df : List TrainRow) (horizon : Nat)
    (yhat : List (Option ℚ)) :
    (12 ≤ n_months df → nonzeroVariance df →
      forecast_from_train df horizon yhat = prophetRows (lastMonth df) yhat)
    ∧ (n_months df < 12 →
      forecast_from_train df horizon yhat = fallbackRows df horizon) := by
  constructor
  · intro h12 _
    unfold forecast_from_train
    rw [if_neg (by omega), if_neg (by omega)]
  · intro h
    unfold forecast_from_train
    rw [if_pos h]

/-- The spec's "Bond Paper" scenario: 12 populated months. -/
def bondPaperTrain : List TrainRow :=
  [⟨1, some 50⟩, ⟨2, some 60⟩, ⟨3, some 55⟩, ⟨4, some 70⟩, ⟨5, some 65⟩, ⟨6, some 58⟩,
   ⟨7, some 62⟩, ⟨8, some 59⟩, ⟨9, some 64⟩, ⟨10, some 61⟩, ⟨11, some 66⟩, ⟨12, some 63⟩]

/-- The spec's "Rare Widget" scenario: 2 populated months. -/
def rareWidgetTrain : List TrainRow := [⟨1, some 5⟩, ⟨2, some 7⟩]

/-- Witness for C3 at the spec's two scenarios. -/
theorem C3_eligibility_witness :
    forecast_from_train bondPaperTrain 6 [] = prophetRows (lastMonth bondPaperTrain) []
    ∧ forecast_from_train rareWidgetTrain 6 [] = fallbackRows rareWidgetTrain 6 :=
  ⟨(C3_eligibility bondPaperTrain 6 []).1 (by decide)
      ⟨50, by decide, 60, by decide, by decide⟩,
   (C3_eligibility rareWidgetTrain 6 []).2 (by decide)⟩

/-- C4: `forecast_next_month_safe` never raises for an item with at least one
history record (it answers with the first value of the forecast path), and it
reports "no data" exactly when the item has zero history. -/
theorem C4_next_month_safe (models : Models) (hist : History) (item : String) :
    (itemHistory hist item ≠ [] →
      ∃ v, forecast_next_month_safe models hist item = .ok v)
    ∧ (itemHistory hist item = [] →
      forecast_next_month_safe models hist item
        = .error ("No data for item: " ++ item)) := by
  constructor
  · intro h
    have hne : (itemHistory hist item).isEmpty = false := by
      simpa [List.isEmpty_iff] using h
    unfold forecast_next_month_safe
    rw [hne]
    simp only [Bool.false_eq_true, if_false]
    cases hfc : forecast_next_6_months_for_itemname models hist item with
    | ok path => exact ⟨_, rfl⟩
    | error e => exact ⟨_, rfl⟩
  · intro h
    unfold forecast_next_month_safe
    rw [h]
    rfl

/-- Witness for C4: "a" with one record succeeds; "a" with empty history is
the "no data" error. -/
theorem C4_next_month_safe_witness :
    (∃ v, forecast_next_month_safe [] [⟨1, "a", 5⟩] "a" = .ok v)
    ∧ forecast_next_month_safe [] [] "a" = .error ("No data for item: " ++ "a") :=
  ⟨(C4_next_month_safe [] [⟨1, "a", 5⟩] "a").1 (by decide),
   (C4_next_month_safe [] [] "a").2 rfl⟩

/-- C5: a forecast request for an item in neither the model cache nor the
loaded history answers with the 404 not-found error carrying the forecaster's
message — an error class distinct from the 400 data-load failure — and never
an ok response. -/
theorem C5_unknown_item (db xl : LoadRes) (stock : List StockRow) (models : Models)
    (item : String) (actor : PyVal) (logdb : DbOutcome) (hist : History)
    (hload : load_pref db xl = .ok hist)
    (hmodel : lookupModel models item = none)
    (hhist : itemHistory hist item = []) :
    forecast_one_item db xl stock models item actor logdb
      = .error (.notFound ("No data for item: " ++ item))
    ∧ ∀ d, ApiErr.notFound ("No data for item: " ++ item) ≠ ApiErr.badRequest d := by
  have h6 : forecast_next_6_months_for_itemname models hist item
      = .error ("No data for item: " ++ item) := by
    unfold forecast_next_6_months_for_itemname
    rw [hmodel, hhist]
    rfl
  constructor
  · unfold forecast_one_item
    rw [hload]
    simp only [h6]
  · intro d h
    exact ApiErr.noConfusion h

/-- Witness for C5: item "a" with empty cache and a history holding only
item "b". -/
theorem C5_unknown_item_witness :
    forecast_one_item (.ok [⟨1, "b", 5⟩]) (.ok []) [] [] "a" .vnone .ok
      = .error (.notFound ("No data for item: " ++ "a"))
    ∧ ∀ d, ApiErr.notFound ("No data for item: " ++ "a") ≠ ApiErr.badRequest d :=
  C5_unknown_item _ _ _ _ _ _ _ [⟨1, "b", 5⟩] rfl rfl (by decide)

/-- C6 counterexample: the stock table normalises its names with strip +
casefold, but the single-item endpoints look the request name up casefolded
WITHOUT stripping, so "Bond Paper " (trailing blank) and "bond paper" — equal
up to case and surrounding whitespace — resolve to different current-stock
values (0 vs 40). -/
theorem C6_counterexample :
    casefold (strip "Bond Paper ") = casefold (strip "bond paper")
    ∧ currentStockFor [⟨"Bond Paper", 40⟩] "Bond Paper " = 0
    ∧ currentStockFor [⟨"Bond Paper", 40⟩] "bond paper" = 40
    ∧ (0 : Int) ≠ 40 := by decide

/-- C6 (amended): stock-table names are stripped and casefolded; the
single-item endpoints casefold the request name without stripping, so request
names equal up to case alone resolve to the same current stock, while
`next_month_all_items` strips and casefolds both sides, so names equal up to
case and surrounding whitespace resolve to the same stock there. -/
theorem C6_amended_case_insensitive (rows : List StockRow) (n1 n2 : String)
    (hcase : casefold n1 = casefold n2) :
    currentStockFor rows n1 = currentStockFor rows n2
    ∧ ∀ m1 m2, allItemsKey m1 = allItemsKey m2 →
        currentStockForAll rows m1 = currentStockForAll rows m2 := by
  constructor
  · unfold currentStockFor
    rw [hcase]
  · intro m1 m2 h
    unfold currentStockForAll
    rw [h]

/-- Witness for the amended C6 on the Bond Paper table. -/
theorem C6_amended_witness :
    currentStockFor [⟨"Bond Paper", 40⟩] "BOND PAPER"
        = currentStockFor [⟨"Bond Paper", 40⟩] "bond paper"
    ∧ ∀ m1 m2, allItemsKey m1 = allItemsKey m2 →
        currentStockForAll [⟨"Bond Paper", 40⟩] m1
          = currentStockForAll [⟨"Bond Paper", 40⟩] m2 :=
  C6_amended_case_insensitive _ _ _ (by decide)

/-- C7 counterexample: with a non-empty database history and an empty
spreadsheet, the export endpoint's history (spreadsheet only, lines 189-192)
differs from the database-preferring choice the claim asserts for every
forecast/restock endpoint. -/
theorem C7_counterexample :
    export_history_source (LoadRes.ok [⟨1, "a", 5⟩]) (LoadRes.ok [])
      ≠ load_pref (LoadRes.ok [⟨1, "a", 5⟩]) (LoadRes.ok []) := by decide

/-- C7 (amended): the forecast and next-month endpoints (which share
`load_pref`) prefer the database and fall back to the spreadsheet exactly
when the database result is empty (a database load failure surfaces as the
error); the export endpoint reads the spreadsheet only, independent of the
database result. -/
theorem C7_amended :
    (∀ m xl, load_pref (LoadRes.fail m) xl = Except.error m)
    ∧ (∀ rows xl, rows ≠ [] → load_pref (LoadRes.ok rows) xl = Except.ok rows)
    ∧ (∀ db xl, load_pref (LoadRes.ok []) xl = export_history_source db xl)
    ∧ (∀ db db2 xl, export_history_source db xl = export_history_source db2 xl)
    ∧ (∀ db xs, export_history_source db (LoadRes.ok xs) = Except.ok xs)
    ∧ (∀ db m, export_history_source db (LoadRes.fail m) = Except.error m) := by
  refine ⟨fun m xl => rfl, ?_, ?_, ?_, fun db xs => rfl, fun db m => rfl⟩
  · intro rows xl h
    have hne : rows.isEmpty = false := by simpa [List.isEmpty_iff] using h
    simp [load_pref, hne]
  · intro db xl
    cases xl <;> rfl
  · intro db db2 xl
    cases xl <;> rfl

/-- Witness for the amended C7: a non-empty database result is preferred. -/
theorem C7_amended_witness :
    load_pref (LoadRes.ok [⟨1, "a", 5⟩]) (LoadRes.ok []) = Except.ok [⟨1, "a", 5⟩] :=
  C7_amended.2.1 [⟨1, "a", 5⟩] (LoadRes.ok []) (by decide)

/-- C8: the daily loop starts a retrain exactly when the status lacks a
timestamp parsing to today's UTC date, and — because consecutive wakes of the
loop are at least 24 hours apart — any two distinct wakes fall on distinct
UTC days, so at most one scheduled retrain is triggered per UTC day. -/
theorem C8_daily_scheduler :
    (∀ (last : LastTrained) (today : Nat),
      triggersRetrain last today = true ↔ last ≠ some (some today))
    ∧ (∀ w : Nat → Nat, (∀ n, w n + 86400 ≤ w (n + 1)) →
      ∀ m n, m < n → utcDay (w m) < utcDay (w n)) := by
  constructor
  · intro last today
    cases last with
    | none => simp [triggersRetrain, already_ran_today]
    | some o =>
        cases o with
        | none => simp [triggersRetrain, already_ran_today]
        | some d => simp [triggersRetrain, already_ran_today]
  · intro w hw m n hmn
    have key : ∀ a b : Nat, a + 86400 ≤ b → utcDay a < utcDay b := by
      intro a b hab
      have h1 : utcDay a < utcDay (a + 86400) := by
        unfold utcDay
        rw [Nat.add_div_right _ (by norm_num)]
        omega
      exact lt_of_lt_of_le h1 (Nat.div_le_div_right hab)
    have step : ∀ k, m < k → w m + 86400 ≤ w k := by
      intro k hk
      induction k with
      | zero => omega
      | succ j ih =>
          rcases Nat.lt_succ_iff_lt_or_eq.mp hk with hj | hj
          · have h1 := ih hj
            have h2 := hw j
            omega
          · subst hj
            exact hw m
    exact key _ _ (step n hmn)

/-- Witness for C8: a concrete status/today pair and a concrete wake schedule
spaced exactly one day apart. -/
theorem C8_daily_scheduler_witness :
    (triggersRetrain (some (some 3)) 4 = true ↔ some (some 3) ≠ some (some 4))
    ∧ utcDay ((fun k => k * 86400) 0) < utcDay ((fun k => k * 86400) 1) :=
  ⟨C8_daily_scheduler.1 (some (some 3)) 4,
   C8_daily_scheduler.2 (fun k => k * 86400)
     (fun n => by
       show n * 86400 + 86400 ≤ (n + 1) * 86400
       omega)
     0 1 (by omega)⟩

/-- Helper: `pyIntOf` only ever raises TypeError or ValueError. -/
theorem uidOf_ok (v : PyVal) : ∃ u, uidOf v = .ok u := by
  cases v with
  | vnone => exact ⟨none, rfl⟩
  | vint n => exact ⟨some n, rfl⟩
  | vfloat q => exact ⟨some (pyTruncInt q), rfl⟩
  | vstr s =>
      cases hp : parseIntStr s with
      | some n => exact ⟨some n, by simp [uidOf, pyIntOf, hp]⟩
      | none => exact ⟨none, by simp [uidOf, pyIntOf, hp]⟩

/-- Helper: `log_activity` returns normally on every input and database
outcome. -/
theorem log_activity_ok (v : PyVal) (db : DbOutcome) :
    log_activity v db = Except.ok () := by
  obtain ⟨u, hu⟩ := uidOf_ok v
  unfold log_activity
  rw [hu]
  cases db <;> rfl

/-- Helper: with no stock row matching the request name's key, the `.get`
default of 0 is returned. -/
theorem currentStockFor_eq_zero (stock : List StockRow) (item : String)
    (hmiss : ∀ r ∈ stock, casefold (strip r.item_name) ≠ casefold item) :
    currentStockFor stock item = 0 := by
  unfold currentStockFor dictGet
  have hfind : (stock_map (get_stock_from_db stock)).reverse.find?
      (fun p => p.1 == casefold item) = none := by
    rw [List.find?_eq_none]
    intro p hp
    rw [List.mem_reverse] at hp
    unfold stock_map get_stock_from_db at hp
    rw [List.map_map] at hp
    obtain ⟨r, hr, hpr⟩ := List.mem_map.mp hp
    rw [← hpr]
    simpa using hmiss r hr
  rw [hfind]

/-- C9: when the (casefolded) request name matches no row of the stock table,
current_stock is 0 and each single-item endpoint behaves exactly as with an
empty stock table — a missing stock row is never an error. -/
theorem C9_missing_stock_row (db xl : LoadRes) (stock : List StockRow)
    (models : Models) (item : String) (actor : PyVal) (logdb : DbOutcome)
    (hmiss : ∀ r ∈ stock, casefold (strip r.item_name) ≠ casefold item) :
    currentStockFor stock item = 0
    ∧ forecast_one_item db xl stock models item actor logdb
        = forecast_one_item db xl [] models item actor logdb
    ∧ next_month_one_item db xl stock models item actor logdb
        = next_month_one_item db xl [] models item actor logdb
    ∧ export_item_plan xl stock models item actor logdb
        = export_item_plan xl [] models item actor logdb := by
  have h0 : currentStockFor stock item = 0 := currentStockFor_eq_zero stock item hmiss
  have h0e : currentStockFor [] item = 0 := rfl
  exact ⟨h0,
    by simp only [forecast_one_item, h0, h0e],
    by simp only [next_month_one_item, h0, h0e],
    by simp only [export_item_plan, h0, h0e]⟩

/-- Witness for C9: item "Stapler" against a stock table holding only
"Bond Paper". -/
theorem C9_missing_stock_row_witness :
    currentStockFor [⟨"Bond Paper", 40⟩] "Stapler" = 0
    ∧ forecast_one_item (.ok []) (.ok []) [⟨"Bond Paper", 40⟩] [] "Stapler" .vnone .ok
        = forecast_one_item (.ok []) (.ok []) [] [] "Stapler" .vnone .ok
    ∧ next_month_one_item (.ok []) (.ok []) [⟨"Bond Paper", 40⟩] [] "Stapler" .vnone .ok
        = next_month_one_item (.ok []) (.ok []) [] [] "Stapler" .vnone .ok
    ∧ export_item_plan (.ok []) [⟨"Bond Paper", 40⟩] [] "Stapler" .vnone .ok
        = export_item_plan (.ok []) [] [] "Stapler" .vnone .ok :=
  C9_missing_stock_row _ _ _ _ _ _ _ (by decide)

/-- C10: `log_activity` never propagates an exception — for every user_id
value (None, int, float, or string, parseable or not) and every database
outcome (success, connection failure, integrity violation, other failure) it
returns normally — and consequently each endpoint's response is independent
of the activity-log write's outcome. -/
theorem C10_log_activity_never_raises :
    (∀ (v : PyVal) (db : DbOutcome), log_activity v db = Except.ok ())
    ∧ (∀ db xl stock models item actor logdb logdb2,
        forecast_one_item db xl stock models item actor logdb
          = forecast_one_item db xl stock models item actor logdb2)
    ∧ (∀ db xl stock models item actor logdb logdb2,
        next_month_one_item db xl stock models item actor logdb
          = next_month_one_item db xl stock models item actor logdb2)
    ∧ (∀ xl stock models item actor logdb logdb2,
        export_item_plan xl stock models item actor logdb
          = export_item_plan xl stock models item actor logdb2) := by
  refine ⟨log_activity_ok, ?_, ?_, ?_⟩ <;>
    intros <;>
    simp only [forecast_one_item, next_month_one_item, export_item_plan,
      log_activity_ok]

end ITrack
